import Mathlib

/-!
Shallow embedding of `src/data.py`: the VOT-folder ground-truth parsing
(`Folder`), the lazy region view (`RegionDataset`), and the rejection
sampler (`SimpleSampler`), together with theorems settling the
specification's claims against this code.

Numeric model: numpy float64 values are modelled as exact rationals (ℚ).
The one floating-point artefact that matters for the claims — the IoU
division `area_over / area_union` when `area_union` is `0.0`, which in
numpy is `0.0/0.0 = NaN` — is modelled explicitly: the IoU is an
`Option ℚ`, with `none` standing for NaN, and both threshold comparisons
on `none` are false, exactly as comparisons against NaN are.  (A zero
union forces a zero overlap for geometrically valid inputs, so the
division really is 0/0 there; see `zero_union_nan_discard`.)

Randomness model: each iteration of the sampling loop consumes one
`Draw`, holding the sampled centre (`numpy.random.normal(ctr, sigma)`)
and the multiplicative scale factor
`COEF_SCALE ** numpy.random.normal(scale=sigma_s)` (a positive real for
any finite Gaussian draw).  The loop is evaluated against an explicit
finite list of draws; `none` means the `while True` loop did not
terminate within that list of draws.
-/

/-- A 2-D point / vector with rational coordinates, standing for a numpy
length-2 float array. -/
structure Vec2 where
  x : ℚ
  y : ℚ
deriving DecidableEq, Repr

/-- An axis-aligned box: the 4-vector `(min_x, min_y, max_x, max_y)` of the
code, reshaped into its corner pair `lt, br` exactly as `data.py` does with
`bbox.reshape([2, 2])`. -/
structure Box where
  lt : Vec2
  br : Vec2
deriving DecidableEq, Repr

/-- Abstract view of the filesystem facts `Folder.__init__` consults:
whether the (absolute) path is a directory (`os.path.isdir`; false also
when the path does not exist), whether `groundtruth.txt` exists inside it
(`os.path.isfile`), the image-like filenames (already filtered by
extension against `IMG_EXTENSIONS` and sorted, as lines 28-31 of
`data.py` do), and the comma-separated numeric values of each data line
of the ground-truth file.  `gtruthRows` is the file's raw line contents:
what `numpy.genfromtxt` makes of them — the ragged-file `ValueError` and
the squeeze of single-line or single-column files to a 1-D (or 0-D)
array — is modelled inside `Folder.init`. -/
structure FolderFS where
  isDir : Bool
  hasGroundtruth : Bool
  imageNames : List String
  gtruthRows : List (List ℚ)
deriving DecidableEq, Repr

/-- The column-count check `numpy.genfromtxt` performs: every data line
must have the same number of values as the first; otherwise it raises
`ValueError` ("Some errors were detected").  True on the empty file. -/
def uniformRows : List (List ℚ) → Bool
  | [] => true
  | r :: rest => rest.all (fun q => q.length = r.length)

/-- Elements at even positions 0, 2, 4, … of a list: the slice `gt[0::2]`. -/
def stride2 : List ℚ → List ℚ
  | [] => []
  | [a] => [a]
  | a :: _ :: rest => a :: stride2 rest

/-- Python `min(*pts)`: the minimum of the unpacked list.  With fewer than
two values unpacked, `min` is handed a single non-iterable argument (or
nothing) and raises a `TypeError`, modelled as `none`. -/
def pyMinStar : List ℚ → Option ℚ
  | a :: b :: rest => some ((b :: rest).foldl min a)
  | _ => none

/-- Python `max(*pts)`, symmetric to `pyMinStar`. -/
def pyMaxStar : List ℚ → Option ℚ
  | a :: b :: rest => some ((b :: rest).foldl max a)
  | _ => none

/-- Reduction of one ground-truth row to an axis-aligned box (lines 43-51
of `data.py`): split into even-indexed xs and odd-indexed ys, then take
`min`/`max` per axis.  `none` models the exception escaping the
constructor on a row with too few points. -/
def parseRecord (gt : List ℚ) : Option Box :=
  match pyMinStar (stride2 gt), pyMinStar (stride2 gt.tail),
        pyMaxStar (stride2 gt), pyMaxStar (stride2 gt.tail) with
  | some min_x, some min_y, some max_x, some max_y =>
      some ⟨⟨min_x, min_y⟩, ⟨max_x, max_y⟩⟩
  | _, _, _, _ => none

/-- The `for fn, gt in zip(fnames, gtruth)` loop body of `Folder.__init__`:
builds the `(filename, bbox)` entry list, failing if any zipped record
fails to parse (the exception aborts construction). -/
def buildData : List (String × List ℚ) → Option (List (String × Box))
  | [] => some []
  | (fn, gt) :: rest =>
    match parseRecord gt, buildData rest with
    | some b, some d => some ((fn, b) :: d)
    | _, _ => none

/-- Error classes `Folder.__init__` can surface.  `notADir` and
`noGroundtruth` are the two explicit `ValueError` raises of lines 20-25
(the spec's `ConfigurationError`).  The other three are exceptions from
`numpy.genfromtxt` or the record loop, none of which is one of the two
configuration raises: `raggedGtruth` is genfromtxt's `ValueError` on
lines with inconsistent column counts; `squeezedGtruth` is the fault hit
when genfromtxt squeezes a single-line or single-column file to a 1-D
(or 0-D) array, so that `zip` iterates scalars and `gt[0::2]` raises
`IndexError` (0-D: iterating raises `TypeError` outright); `parseFault`
is the `TypeError` escaping `min(*pts)`/`max(*pts)` on a too-short row. -/
inductive FolderError where
  | notADir
  | noGroundtruth
  | raggedGtruth
  | squeezedGtruth
  | parseFault
deriving DecidableEq, Repr

/-- The constructed `Folder` object: its immutable entry list `self.data`. -/
structure Folder where
  data : List (String × Box)
deriving DecidableEq, Repr

/-- Embedding of `Folder.__init__` (lines 17-54 of `data.py`): path check,
ground-truth-file check, `numpy.genfromtxt` on the ground-truth file,
then zip the sorted image names with the ground-truth records.
`Except.error` models the constructor raising, in which case no object
(hence no entry list) is produced.  genfromtxt's behaviour is modelled
faithfully: it raises `ValueError` on ragged files, and it squeezes a
single-line file to shape `(ncols,)` and a single-column file to shape
`(nlines,)` — in both squeezed cases `zip(fnames, gtruth)` pairs each
filename with a SCALAR, so the loop body's `gt[0::2]` raises
`IndexError` as soon as there is at least one image file (with no image
files the zip is empty and construction still succeeds with an empty
entry list); a one-line one-value file gives a 0-D array, whose very
iteration raises `TypeError`.  Only a file of two or more uniform
multi-value lines reaches the per-record parsing loop. -/
def Folder.init (fs : FolderFS) : Except FolderError Folder :=
  if !fs.isDir then .error .notADir
  else if !fs.hasGroundtruth then .error .noGroundtruth
  else if !uniformRows fs.gtruthRows then .error .raggedGtruth
  else if fs.gtruthRows.length = 1 ∧ (fs.gtruthRows.headI).length ≤ 1 then
    .error .squeezedGtruth
  else if fs.gtruthRows.length = 1 ∨ (fs.gtruthRows.headI).length = 1 then
    if fs.imageNames.isEmpty then .ok ⟨[]⟩
    else .error .squeezedGtruth
  else
    match buildData (fs.imageNames.zip fs.gtruthRows) with
    | none => .error .parseFault
    | some d => .ok ⟨d⟩

/-- Embedding of `RegionDataset` (lines 65-97 of `data.py`), polymorphic
over the image type (image decoding and pixel contents are external
collaborators).  The transform fields mirror the Python attributes. -/
structure RegionDataset (Img : Type) where
  img : Img
  crops : List (Bool × Box)
  transforms : Option (Img → Img)
  target_transforms_pos : Option (Box → Box)
  target_transforms_neg : Option (Box → Box)

/-- State-passing embedding of `RegionDataset.__getitem__` (lines 83-97):
the result pair together with the object state after the call (the method
body assigns to no attribute, which the returned state exhibits).  The
image's `crop` method is the injected `crop` argument; `none` models the
`IndexError` of an out-of-range index. -/
def RegionDataset.getitem {Img : Type} (crop : Img → Box → Img)
    (self : RegionDataset Img) (index : ℕ) :
    Option ((Img × Box) × RegionDataset Img) :=
  match self.crops[index]? with
  | none => none
  | some (is_pos, bbox) =>
    let img1 := crop self.img bbox
    let img2 := match self.transforms with
      | some t => t img1
      | none => img1
    let target :=
      if is_pos then
        match self.target_transforms_pos with
        | some t => t bbox
        | none => bbox
      else
        match self.target_transforms_neg with
        | some t => t bbox
        | none => bbox
    some ((img2, target), self)

/-- Line 8 of `data.py`. -/
def COEF_SCALE : ℚ := 105 / 100

/-- One iteration's random draws in `SimpleSampler.__call__`: the sampled
centre `numpy.random.normal(ctr, sigma)` and the multiplicative scale
factor `COEF_SCALE ** numpy.random.normal(scale=self.sigma_s)`.  The
factor is `COEF_SCALE` raised to a real Gaussian draw, hence an arbitrary
positive real; it is carried here directly as a rational. -/
structure Draw where
  nctr : Vec2
  scaleF : ℚ
deriving DecidableEq, Repr

/-- Embedding of the `SimpleSampler` object state set up by `__init__`
(lines 105-127 of `data.py`). -/
structure SimpleSampler (Img : Type) where
  isize : Vec2
  transforms : Option (Img → Img)
  target_transforms_pos : Option (Box → Box)
  target_transforms_neg : Option (Box → Box)
  num : ℕ × ℕ
  thres_pos : ℚ
  thres_neg : ℚ
  sigma_t : Vec2
  sigma_s : ℚ

/-- Embedding of `SimpleSampler.__init__`: in particular `self.isize` is
`br - lt` of the `init_bbox` argument, fixed at construction (lines
116-118). -/
def SimpleSampler.init (Img : Type) (init_bbox : Box)
    (transforms : Option (Img → Img))
    (ttp ttn : Option (Box → Box)) (num : ℕ × ℕ) (threshold : ℚ × ℚ)
    (sigma_xy : Vec2) (sigma_s : ℚ) : SimpleSampler Img :=
  { isize := ⟨init_bbox.br.x - init_bbox.lt.x, init_bbox.br.y - init_bbox.lt.y⟩
    transforms := transforms
    target_transforms_pos := ttp
    target_transforms_neg := ttn
    num := num
    thres_pos := threshold.1
    thres_neg := threshold.2
    sigma_t := sigma_xy
    sigma_s := sigma_s }

/-- Line 134-135 of `data.py`: `sz = numpy.mean(br - lt)` is the SCALAR
mean of width and height, and `area = numpy.prod(sz)` of a scalar is that
scalar itself.  So the code's reference "area" is `(width + height) / 2`,
not `width * height`. -/
def refArea (ref : Box) : ℚ :=
  ((ref.br.x - ref.lt.x) + (ref.br.y - ref.lt.y)) / 2

/-- Line 155: `nsize_2 = self.isize * (COEF_SCALE ** draw) / 2`, the
jittered half-size, computed from the construction-time `self.isize`. -/
def nsizeHalf (isize : Vec2) (d : Draw) : Vec2 :=
  ⟨isize.x * d.scaleF / 2, isize.y * d.scaleF / 2⟩

/-- Lines 156-157: the candidate box `nctr ∓ nsize_2`. -/
def candBox (isize : Vec2) (d : Draw) : Box :=
  ⟨⟨d.nctr.x - (nsizeHalf isize d).x, d.nctr.y - (nsizeHalf isize d).y⟩,
   ⟨d.nctr.x + (nsizeHalf isize d).x, d.nctr.y + (nsizeHalf isize d).y⟩⟩

/-- Line 160, the box-disjointness test:
`(br < nlt).any() or (lt > nbr).any()` with strict comparisons. -/
def overlapFails (ref cand : Box) : Bool :=
  (decide (ref.br.x < cand.lt.x) || decide (ref.br.y < cand.lt.y)) ||
  (decide (ref.lt.x > cand.br.x) || decide (ref.lt.y > cand.br.y))

/-- Lines 165-168: intersection corners by elementwise `max`/`min` and the
product of the side lengths (no flooring at zero). -/
def area_over (ref cand : Box) : ℚ :=
  (min ref.br.x cand.br.x - max ref.lt.x cand.lt.x) *
  (min ref.br.y cand.br.y - max ref.lt.y cand.lt.y)

/-- Line 169: `area_add = numpy.prod(nsize_2) * 4`, the candidate area
recomputed from the jittered half-extents. -/
def area_add (isize : Vec2) (d : Draw) : ℚ :=
  (nsizeHalf isize d).x * (nsizeHalf isize d).y * 4

/-- Line 170: `area_union = area + area_add - area_over`, with `area` the
code's scalar-mean reference "area" (`refArea`). -/
def area_union (ref : Box) (isize : Vec2) (d : Draw) : ℚ :=
  refArea ref + area_add isize d - area_over ref (candBox isize d)

/-- Line 172, `iou = area_over / area_union`: `none` models the NaN that
numpy's `0.0/0.0` produces when the union is zero (for geometrically
valid inputs a zero union forces a zero overlap, so the division is
exactly 0/0 there — see `zero_union_nan_discard`). -/
def iouOf (ref : Box) (isize : Vec2) (d : Draw) : Option ℚ :=
  if area_union ref isize d = 0 then none
  else some (area_over ref (candBox isize d) / area_union ref isize d)

/-- How one loop iteration classifies its candidate.  `disjointNeg` is the
line-160 branch (classify negative, `continue`); the other three are the
IoU-test outcomes of lines 175-178 (`discard` covers both the ambiguous
band and the NaN case, where both comparisons are false). -/
inductive StepResult where
  | disjointNeg
  | addPos
  | addNeg
  | discard
deriving DecidableEq, Repr

/-- Classification of the candidate drawn from `d`, following lines
159-178 of `data.py`. -/
def stepClassify (tp tn : ℚ) (ref : Box) (isize : Vec2) (d : Draw) : StepResult :=
  if overlapFails ref (candBox isize d) then StepResult.disjointNeg
  else
    match iouOf ref isize d with
    | none => StepResult.discard
    | some q =>
      if q ≥ tp then StepResult.addPos
      else if q < tn then StepResult.addNeg
      else StepResult.discard

/-- The inner helper `add_data` (lines 141-150): append `(is_pos, box)`
and decrement the matching quota, but only if that quota is not yet
exhausted.  `remain.1` is the positive quota (`idx = int(not is_pos)`). -/
def addData (is_pos : Bool) (b : Box) (remain : ℕ × ℕ)
    (data : List (Bool × Box)) : (ℕ × ℕ) × List (Bool × Box) :=
  if is_pos then
    if remain.1 = 0 then (remain, data)
    else ((remain.1 - 1, remain.2), data ++ [(is_pos, b)])
  else
    if remain.2 = 0 then (remain, data)
    else ((remain.1, remain.2 - 1), data ++ [(is_pos, b)])

/-- Effect of one iteration on the `(remain, data)` state: `add_data` is
called in the disjoint branch and in the two IoU branches, and not at all
on a discarded draw. -/
def stepAdd (tp tn : ℚ) (ref : Box) (isize : Vec2) (d : Draw)
    (remain : ℕ × ℕ) (data : List (Bool × Box)) :
    (ℕ × ℕ) × List (Bool × Box) :=
  match stepClassify tp tn ref isize d with
  | StepResult.disjointNeg => addData false (candBox isize d) remain data
  | StepResult.addPos => addData true (candBox isize d) remain data
  | StepResult.addNeg => addData false (candBox isize d) remain data
  | StepResult.discard => (remain, data)

/-- The `while True` loop of lines 152-182, evaluated against an explicit
list of pending draws.  The loop breaker `all(remain == 0)` is reached
only on iterations that pass the overlap test: the disjoint branch ends
in `continue`.  `none` means the loop did not terminate within the given
draws; on termination the unconsumed draws are returned alongside the
accumulated data. -/
def sampleLoop (tp tn : ℚ) (ref : Box) (isize : Vec2) :
    List Draw → ℕ × ℕ → List (Bool × Box) →
    Option (List (Bool × Box) × List Draw)
  | [], _, _ => none
  | d :: ds, remain, data =>
    if stepClassify tp tn ref isize d = StepResult.disjointNeg then
      sampleLoop tp tn ref isize ds
        (stepAdd tp tn ref isize d remain data).1
        (stepAdd tp tn ref isize d remain data).2
    else if (stepAdd tp tn ref isize d remain data).1 = (0, 0) then
      some ((stepAdd tp tn ref isize d remain data).2, ds)
    else
      sampleLoop tp tn ref isize ds
        (stepAdd tp tn ref isize d remain data).1
        (stepAdd tp tn ref isize d remain data).2

/-- Embedding of `SimpleSampler.__call__` (lines 129-190): run the
rejection loop from the fresh state `(self.num.copy(), [])` and wrap the
accumulated candidates in a `RegionDataset` carrying the configured
transforms.  The reference geometry (`lt`, `br`, `area`) is taken from
the per-call `bbox`; the candidate half-size from the construction-time
`self.isize`. -/
def SimpleSampler.call {Img : Type} (self : SimpleSampler Img) (img : Img)
    (bbox : Box) (draws : List Draw) : Option (RegionDataset Img) :=
  match sampleLoop self.thres_pos self.thres_neg bbox self.isize draws
      self.num [] with
  | none => none
  | some (out, _) =>
    some ⟨img, out, self.transforms, self.target_transforms_pos,
          self.target_transforms_neg⟩

/-- True geometric intersection area of two axis-aligned boxes (overlap
width and height each floored at 0).  This is a mathematical notion used
to STATE spec claims about "zero geometric overlap"; it is not part of
the code. -/
def geomOverlapArea (a b : Box) : ℚ :=
  max 0 (min a.br.x b.br.x - max a.lt.x b.lt.x) *
  max 0 (min a.br.y b.br.y - max a.lt.y b.lt.y)

/-! ### Helper lemmas shared by the claim theorems -/

/-- The quota sums `count-of-class-in-data + remaining-quota` are invariant
under `add_data`, and so is `length + both quotas`. -/
theorem addData_counts (is_pos : Bool) (b : Box) (r : ℕ × ℕ)
    (data : List (Bool × Box)) :
    (addData is_pos b r data).2.countP (fun c => c.1) + (addData is_pos b r data).1.1
      = data.countP (fun c => c.1) + r.1 ∧
    (addData is_pos b r data).2.countP (fun c => !c.1) + (addData is_pos b r data).1.2
      = data.countP (fun c => !c.1) + r.2 ∧
    (addData is_pos b r data).2.length
        + ((addData is_pos b r data).1.1 + (addData is_pos b r data).1.2)
      = data.length + (r.1 + r.2) := by
  cases is_pos with
  | false =>
    by_cases h : r.2 = 0 <;>
      simp [addData, h, List.countP_append, List.countP_cons] <;> omega
  | true =>
    by_cases h : r.1 = 0 <;>
      simp [addData, h, List.countP_append, List.countP_cons] <;> omega

/-- The `add_data` invariant, transported through one whole iteration. -/
theorem stepAdd_counts (tp tn : ℚ) (ref : Box) (isize : Vec2) (d : Draw)
    (r : ℕ × ℕ) (data : List (Bool × Box)) :
    (stepAdd tp tn ref isize d r data).2.countP (fun c => c.1)
        + (stepAdd tp tn ref isize d r data).1.1
      = data.countP (fun c => c.1) + r.1 ∧
    (stepAdd tp tn ref isize d r data).2.countP (fun c => !c.1)
        + (stepAdd tp tn ref isize d r data).1.2
      = data.countP (fun c => !c.1) + r.2 ∧
    (stepAdd tp tn ref isize d r data).2.length
        + ((stepAdd tp tn ref isize d r data).1.1 + (stepAdd tp tn ref isize d r data).1.2)
      = data.length + (r.1 + r.2) := by
  cases hc : stepClassify tp tn ref isize d <;>
    simp only [stepAdd, hc] <;>
    first
      | exact addData_counts true (candBox isize d) r data
      | exact addData_counts false (candBox isize d) r data
      | simp

/-- Loop invariant of `sampleLoop`: whenever the loop terminates, the
output's per-class counts equal the input data's counts plus the whole
remaining quotas (the loop breaker fires exactly when both quotas hit 0). -/
theorem sampleLoop_spec (tp tn : ℚ) (ref : Box) (isize : Vec2) :
    ∀ (ds : List Draw) (remain : ℕ × ℕ) (data out : List (Bool × Box))
      (rest : List Draw),
      sampleLoop tp tn ref isize ds remain data = some (out, rest) →
      out.countP (fun c => c.1) = data.countP (fun c => c.1) + remain.1 ∧
      out.countP (fun c => !c.1) = data.countP (fun c => !c.1) + remain.2 ∧
      out.length = data.length + (remain.1 + remain.2) := by
  intro ds
  induction ds with
  | nil => intro remain data out rest h; simp [sampleLoop] at h
  | cons d ds ih =>
    intro remain data out rest h
    simp only [sampleLoop] at h
    have hstep := stepAdd_counts tp tn ref isize d remain data
    by_cases hd : stepClassify tp tn ref isize d = StepResult.disjointNeg
    · rw [if_pos hd] at h
      have hrec := ih _ _ _ _ h
      exact ⟨by omega, by omega, by omega⟩
    · rw [if_neg hd] at h
      by_cases hz : (stepAdd tp tn ref isize d remain data).1 = (0, 0)
      · rw [if_pos hz] at h
        obtain ⟨rfl, rfl⟩ : (stepAdd tp tn ref isize d remain data).2 = out ∧ ds = rest := by
          simpa using h
        have h1 : (stepAdd tp tn ref isize d remain data).1.1 = 0 := by rw [hz]
        have h2 : (stepAdd tp tn ref isize d remain data).1.2 = 0 := by rw [hz]
        exact ⟨by omega, by omega, by omega⟩
      · rw [if_neg hz] at h
        have hrec := ih _ _ _ _ h
        exact ⟨by omega, by omega, by omega⟩

/-- A loop iteration takes the `continue` branch exactly when the line-160
disjointness predicate fires. -/
theorem stepClassify_disjoint_iff (tp tn : ℚ) (ref : Box) (isize : Vec2)
    (d : Draw) :
    stepClassify tp tn ref isize d = StepResult.disjointNeg ↔
      overlapFails ref (candBox isize d) = true := by
  constructor
  · intro hcon
    unfold stepClassify at hcon
    split at hcon
    · assumption
    · split at hcon
      · exact StepResult.noConfusion hcon
      · split at hcon
        · exact StepResult.noConfusion hcon
        · split at hcon
          · exact StepResult.noConfusion hcon
          · exact StepResult.noConfusion hcon
  · intro hov
    unfold stepClassify
    simp [hov]

/-- With both quotas already exhausted, `add_data` is a no-op whatever the
iteration classified: the state passes through unchanged. -/
theorem stepAdd_zero (tp tn : ℚ) (ref : Box) (isize : Vec2) (d : Draw)
    (data : List (Bool × Box)) :
    stepAdd tp tn ref isize d (0, 0) data = ((0, 0), data) := by
  unfold stepAdd
  cases stepClassify tp tn ref isize d <;> simp [addData]

/-! ### C1 -/

/-- C1: for every image, reference box and draw sequence on which the
sampling loop terminates, `SimpleSampler.__call__` returns a region view
whose candidate list has length `num_pos + num_neg`, with exactly
`num_pos` entries flagged positive and exactly `num_neg` flagged
negative. -/
theorem sampler_call_quota {Img : Type} (s : SimpleSampler Img) (img : Img)
    (bbox : Box) (draws : List Draw) (rv : RegionDataset Img)
    (h : s.call img bbox draws = some rv) :
    rv.crops.length = s.num.1 + s.num.2 ∧
    rv.crops.countP (fun c => c.1) = s.num.1 ∧
    rv.crops.countP (fun c => !c.1) = s.num.2 := by
  unfold SimpleSampler.call at h
  cases hl : sampleLoop s.thres_pos s.thres_neg bbox s.isize draws s.num [] with
  | none => rw [hl] at h; exact Option.noConfusion h
  | some pr =>
    obtain ⟨out, rest⟩ := pr
    rw [hl] at h
    have hrv : rv = ⟨img, out, s.transforms, s.target_transforms_pos,
        s.target_transforms_neg⟩ := (Option.some.inj h).symm
    have hspec := sampleLoop_spec s.thres_pos s.thres_neg bbox s.isize
      draws s.num [] out rest hl
    rw [hrv]
    simp only [List.countP_nil, List.length_nil, Nat.zero_add] at hspec
    exact ⟨hspec.2.2, hspec.1, hspec.2.1⟩

/-- Reference box used by several concrete scenarios: `(0, 0, 10, 10)`. -/
def wBoxRef : Box := ⟨⟨0, 0⟩, ⟨10, 10⟩⟩

/-- A sampler built on `init_bbox = (0,0,10,10)` with quotas `(1, 1)` and
the default thresholds `(0.7, 0.5)`. -/
def wSampler : SimpleSampler Unit :=
  SimpleSampler.init Unit wBoxRef none none none (1, 1) (7/10, 1/2)
    ⟨3/10, 3/10⟩ (1/2)

/-- Three concrete draws: a copy of the reference (positive), a far-away
candidate (disjoint, negative), and another copy of the reference (the
positive quota is already full, so this draw only reaches the breaker). -/
def wDraws : List Draw := [⟨⟨5, 5⟩, 1⟩, ⟨⟨100, 100⟩, 1⟩, ⟨⟨5, 5⟩, 1⟩]

/-- The region view `wSampler` produces on `wDraws`. -/
def wRV : RegionDataset Unit :=
  ⟨(), [(true, ⟨⟨0, 0⟩, ⟨10, 10⟩⟩), (false, ⟨⟨95, 95⟩, ⟨105, 105⟩⟩)],
   none, none, none⟩

/-- Witness for C1 at a concrete terminating run: quotas `(1, 1)` are hit
exactly. -/
theorem sampler_call_quota_witness :
    wSampler.call () wBoxRef wDraws = some wRV ∧
    wRV.crops.length = wSampler.num.1 + wSampler.num.2 ∧
    wRV.crops.countP (fun c => c.1) = wSampler.num.1 ∧
    wRV.crops.countP (fun c => !c.1) = wSampler.num.2 := by
  have hcall : wSampler.call () wBoxRef wDraws = some wRV := by
    norm_num [SimpleSampler.call, SimpleSampler.init, wSampler, wBoxRef, wDraws,
      wRV, sampleLoop, stepClassify, stepAdd, addData, iouOf, area_union,
      area_over, area_add, refArea, candBox, nsizeHalf, overlapFails]
    rfl
  exact ⟨hcall, sampler_call_quota wSampler () wBoxRef wDraws wRV hcall⟩

/-! ### C2 -/

/-- The reference-size vector `br - lt` of `wBoxRef`, i.e. `self.isize` for
a sampler constructed on `init_bbox = (0,0,10,10)`. -/
def c2Isize : Vec2 := ⟨10, 10⟩

/-- The draw producing the candidate `(5, 5, 15, 15)`: centre `(10, 10)`,
scale factor 1 (a zero log-scale perturbation). -/
def c2Draw : Draw := ⟨⟨10, 10⟩, 1⟩

/-- C2, evaluated on the code: for reference `(0,0,10,10)` and candidate
`(5,5,15,15)`, the loop's IoU is `25/85 = 5/17 ≈ 0.294`, NOT the claimed
`25/175 ≈ 0.143`, because line 134-135 sets the reference "area" to
`numpy.prod(numpy.mean(br - lt))` — the scalar mean side length 10 — so
the union is `10 + 100 - 25 = 85` instead of `100 + 100 - 25 = 175`.
The candidate is still classified negative under `(0.7, 0.5)`.  The last
conjunct shows the slip against IoU's own definition: two identical
`10 × 10` boxes get "IoU" `100/10 = 10`, not 1. -/
theorem iou_mean_size_bug :
    candBox c2Isize c2Draw = ⟨⟨5, 5⟩, ⟨15, 15⟩⟩ ∧
    iouOf wBoxRef c2Isize c2Draw = some (5/17) ∧
    (5/17 : ℚ) ≠ 25/175 ∧
    stepClassify (7/10) (1/2) wBoxRef c2Isize c2Draw = StepResult.addNeg ∧
    iouOf wBoxRef c2Isize ⟨⟨5, 5⟩, 1⟩ = some 10 := by
  refine ⟨?_, ?_, by norm_num, ?_, ?_⟩ <;>
    norm_num [wBoxRef, c2Isize, c2Draw, stepClassify, iouOf, area_union,
      area_over, area_add, refArea, candBox, nsizeHalf, overlapFails]

/-! ### C3 -/

/-- A draw whose candidate `(10, 0, 20, 10)` touches `wBoxRef` exactly at
the edge `x = 10`: zero geometric overlap area, yet no strict inequality
holds, so the line-160 disjointness predicate does not fire. -/
def c3Draw : Draw := ⟨⟨15, 5⟩, 1⟩

/-- C3 counterexample: a candidate with zero geometric overlap area for
which the disjointness predicate does NOT fire, so the iteration falls
through to the IoU computation (its result is `addNeg` via the IoU
branch, not `disjointNeg`).  This refutes "every candidate with zero
overlap area is caught by the predicate and never reaches the IoU
expression": the predicate's comparisons are strict, so touching boxes
slip through. -/
theorem touching_box_reaches_iou :
    geomOverlapArea wBoxRef (candBox c2Isize c3Draw) = 0 ∧
    overlapFails wBoxRef (candBox c2Isize c3Draw) = false ∧
    iouOf wBoxRef c2Isize c3Draw = some 0 ∧
    stepClassify (7/10) (1/2) wBoxRef c2Isize c3Draw = StepResult.addNeg ∧
    stepClassify (7/10) (1/2) wBoxRef c2Isize c3Draw ≠ StepResult.disjointNeg := by
  refine ⟨?_, ?_, ?_, ?_, ?_⟩ <;>
    norm_num [wBoxRef, c2Isize, c3Draw, geomOverlapArea, stepClassify, iouOf,
      area_union, area_over, area_add, refArea, candBox, nsizeHalf,
      overlapFails] <;>
    decide

/-- C3 as amended: whenever the line-160 predicate DOES fire (a strict
separation on some axis), the iteration classifies the candidate negative
immediately (`disjointNeg`, the branch that never evaluates the IoU
expression), and the geometric overlap area of such a pair is indeed 0.
Zero overlap area alone does not imply the predicate fires (see the
counterexample). -/
theorem disjoint_predicate_neg (tp tn : ℚ) (ref : Box) (isize : Vec2)
    (d : Draw) (h : overlapFails ref (candBox isize d) = true) :
    stepClassify tp tn ref isize d = StepResult.disjointNeg ∧
    geomOverlapArea ref (candBox isize d) = 0 := by
  refine ⟨(stepClassify_disjoint_iff tp tn ref isize d).mpr h, ?_⟩
  unfold overlapFails at h
  simp only [Bool.or_eq_true, decide_eq_true_eq] at h
  unfold geomOverlapArea
  rcases h with (h | h) | (h | h)
  · have hx : min ref.br.x (candBox isize d).br.x
        - max ref.lt.x (candBox isize d).lt.x ≤ 0 := by
      have h1 := min_le_left ref.br.x (candBox isize d).br.x
      have h2 := le_max_right ref.lt.x (candBox isize d).lt.x
      linarith
    rw [max_eq_left hx, zero_mul]
  · have hy : min ref.br.y (candBox isize d).br.y
        - max ref.lt.y (candBox isize d).lt.y ≤ 0 := by
      have h1 := min_le_left ref.br.y (candBox isize d).br.y
      have h2 := le_max_right ref.lt.y (candBox isize d).lt.y
      linarith
    rw [max_eq_left hy, mul_zero]
  · have hx : min ref.br.x (candBox isize d).br.x
        - max ref.lt.x (candBox isize d).lt.x ≤ 0 := by
      have h1 := min_le_right ref.br.x (candBox isize d).br.x
      have h2 := le_max_left ref.lt.x (candBox isize d).lt.x
      linarith
    rw [max_eq_left hx, zero_mul]
  · have hy : min ref.br.y (candBox isize d).br.y
        - max ref.lt.y (candBox isize d).lt.y ≤ 0 := by
      have h1 := min_le_right ref.br.y (candBox isize d).br.y
      have h2 := le_max_left ref.lt.y (candBox isize d).lt.y
      linarith
    rw [max_eq_left hy, mul_zero]

/-- Witness for the amended C3 at a concrete strictly-disjoint draw
(candidate `(95, 95, 105, 105)` against reference `(0, 0, 10, 10)`). -/
theorem disjoint_predicate_neg_witness :
    stepClassify (7/10) (1/2) wBoxRef c2Isize ⟨⟨100, 100⟩, 1⟩
      = StepResult.disjointNeg ∧
    geomOverlapArea wBoxRef (candBox c2Isize ⟨⟨100, 100⟩, 1⟩) = 0 :=
  disjoint_predicate_neg (7/10) (1/2) wBoxRef c2Isize ⟨⟨100, 100⟩, 1⟩
    (by norm_num [wBoxRef, c2Isize, overlapFails, candBox, nsizeHalf])

/-! ### C4 -/

/-- A degenerate zero-size reference box at `(5, 5)`. -/
def c4Ref : Box := ⟨⟨5, 5⟩, ⟨5, 5⟩⟩

/-- Zero construction-time size: `init_bbox` was itself zero-size. -/
def c4Isize : Vec2 := ⟨0, 0⟩

/-- A draw landing the zero-size candidate exactly on the reference. -/
def c4Draw : Draw := ⟨⟨5, 5⟩, 1⟩

/-- C4 counterexample: with a zero-size reference overlapped by a
zero-size candidate the union-area is 0, but the IoU step does NOT yield
the value 0 — numpy's `0.0/0.0` is NaN (`none` here) — and consequently
the candidate is discarded (both threshold comparisons on NaN are false)
instead of being classified negative, as an IoU of 0 would be under
`thresh_neg = 0.5`. -/
theorem zero_union_not_zero_iou :
    area_union c4Ref c4Isize c4Draw = 0 ∧
    iouOf c4Ref c4Isize c4Draw ≠ some 0 ∧
    iouOf c4Ref c4Isize c4Draw = none ∧
    stepClassify (7/10) (1/2) c4Ref c4Isize c4Draw = StepResult.discard ∧
    ((0 : ℚ) < 1/2) := by
  refine ⟨?_, ?_, ?_, ?_, by norm_num⟩ <;>
    norm_num [c4Ref, c4Isize, c4Draw, stepClassify, iouOf, area_union,
      area_over, area_add, refArea, candBox, nsizeHalf, overlapFails] <;>
    decide

/-- C4 as amended: for a valid reference box, nonnegative construction
size and a positive scale factor, whenever the candidate passes the
overlap test and the union-area is zero, the overlap-area is zero too
(so the division is exactly `0.0/0.0`), the IoU is NaN (`none`) rather
than 0, and the iteration discards the candidate — no numeric fault is
raised, but no negative classification happens either. -/
theorem zero_union_nan_discard (tp tn : ℚ) (ref : Box) (isize : Vec2) (d : Draw)
    (hvx : ref.lt.x ≤ ref.br.x) (hvy : ref.lt.y ≤ ref.br.y)
    (hix : 0 ≤ isize.x) (hiy : 0 ≤ isize.y) (hs : 0 < d.scaleF)
    (hov : overlapFails ref (candBox isize d) = false)
    (hu : area_union ref isize d = 0) :
    area_over ref (candBox isize d) = 0 ∧ iouOf ref isize d = none ∧
    stepClassify tp tn ref isize d = StepResult.discard := by
  have hiou : iouOf ref isize d = none := by
    unfold iouOf; rw [if_pos hu]
  have hcls : stepClassify tp tn ref isize d = StepResult.discard := by
    unfold stepClassify
    rw [hov]
    simp [hiou]
  refine ⟨?_, hiou, hcls⟩
  have hnx : 0 ≤ isize.x * d.scaleF / 2 :=
    div_nonneg (mul_nonneg hix hs.le) (by norm_num)
  have hny : 0 ≤ isize.y * d.scaleF / 2 :=
    div_nonneg (mul_nonneg hiy hs.le) (by norm_num)
  unfold overlapFails candBox nsizeHalf at hov
  simp only [Bool.or_eq_false_iff, decide_eq_false_iff_not, not_lt] at hov
  obtain ⟨⟨h1, h2⟩, h3, h4⟩ := hov
  unfold area_union area_add area_over refArea candBox nsizeHalf at hu
  dsimp only at hu
  unfold area_over candBox nsizeHalf
  dsimp only
  set nx := isize.x * d.scaleF / 2 with hnxdef
  set ny := isize.y * d.scaleF / 2 with hnydef
  set A := min ref.br.x (d.nctr.x + nx) - max ref.lt.x (d.nctr.x - nx) with hAdef
  set B := min ref.br.y (d.nctr.y + ny) - max ref.lt.y (d.nctr.y - ny) with hBdef
  have hA0 : 0 ≤ A := by
    have hle : max ref.lt.x (d.nctr.x - nx) ≤ min ref.br.x (d.nctr.x + nx) :=
      le_min (max_le hvx h1) (max_le h3 (by linarith))
    simp only [hAdef]
    linarith
  have hB0 : 0 ≤ B := by
    have hle : max ref.lt.y (d.nctr.y - ny) ≤ min ref.br.y (d.nctr.y + ny) :=
      le_min (max_le hvy h2) (max_le h4 (by linarith))
    simp only [hBdef]
    linarith
  have hAw : A ≤ ref.br.x - ref.lt.x := by
    have hm1 := min_le_left ref.br.x (d.nctr.x + nx)
    have hm2 := le_max_left ref.lt.x (d.nctr.x - nx)
    simp only [hAdef]
    linarith
  have hA2 : A ≤ 2 * nx := by
    have hm1 := min_le_right ref.br.x (d.nctr.x + nx)
    have hm2 := le_max_right ref.lt.x (d.nctr.x - nx)
    simp only [hAdef]
    linarith
  have hB2 : B ≤ 2 * ny := by
    have hm1 := min_le_right ref.br.y (d.nctr.y + ny)
    have hm2 := le_max_right ref.lt.y (d.nctr.y - ny)
    simp only [hBdef]
    linarith
  have hABle : A * B ≤ (2 * nx) * (2 * ny) :=
    mul_le_mul hA2 hB2 hB0 (by linarith)
  have hexp : (2 * nx) * (2 * ny) = nx * ny * 4 := by ring
  rw [hexp] at hABle
  clear_value nx ny A B
  have hw0 : ref.br.x - ref.lt.x = 0 := by linarith
  have hA : A = 0 := le_antisymm (by linarith) hA0
  rw [hA, zero_mul]

/-- Witness for the amended C4 at the concrete degenerate input. -/
theorem zero_union_nan_discard_witness :
    area_over c4Ref (candBox c4Isize c4Draw) = 0 ∧
    iouOf c4Ref c4Isize c4Draw = none ∧
    stepClassify (7/10) (1/2) c4Ref c4Isize c4Draw = StepResult.discard :=
  zero_union_nan_discard (7/10) (1/2) c4Ref c4Isize c4Draw
    (by norm_num [c4Ref]) (by norm_num [c4Ref])
    (by norm_num [c4Isize]) (by norm_num [c4Isize])
    (by norm_num [c4Draw])
    (by norm_num [c4Ref, c4Isize, c4Draw, overlapFails, candBox, nsizeHalf])
    (by norm_num [c4Ref, c4Isize, c4Draw, area_union, area_add, area_over,
      refArea, candBox, nsizeHalf])

/-! ### C5 -/

/-- A sampler constructed on `init_bbox = (0,0,10,10)` (so
`self.isize = (10,10)`), with quotas `(1, 0)` and thresholds
`(0.1, 0.05)`. -/
def c5Sampler : SimpleSampler Unit :=
  SimpleSampler.init Unit ⟨⟨0, 0⟩, ⟨10, 10⟩⟩ none none none (1, 0)
    (1/10, 1/20) ⟨3/10, 3/10⟩ (1/2)

/-- The per-call reference box of the C5 scenario: `(0,0,4,4)`, of width
and height 4 — different from the construction-time box. -/
def c5BoxA : Box := ⟨⟨0, 0⟩, ⟨4, 4⟩⟩

/-- The candidate the call produces: size 10 × 10 (from `init_bbox`),
not 4 × 4 (the per-call box's size). -/
def c5Cand : Box := ⟨⟨-3, -3⟩, ⟨7, 7⟩⟩

/-- C5 counterexample: calling the sampler with the box `(0,0,4,4)` and an
un-jittered draw (scale factor 1, centre `(2,2)`) yields a candidate of
width and height 10 — the size fixed at construction from `init_bbox` —
not 4, the size of the box passed to the call.  So the un-jittered
candidate size does NOT follow the per-call box. -/
theorem candidate_size_from_init_bbox :
    c5Sampler.call () c5BoxA [⟨⟨2, 2⟩, 1⟩]
      = some ⟨(), [(true, c5Cand)], none, none, none⟩ ∧
    c5Cand.br.x - c5Cand.lt.x = 10 ∧
    c5Cand.br.y - c5Cand.lt.y = 10 ∧
    c5BoxA.br.x - c5BoxA.lt.x = 4 ∧
    c5Sampler.isize = ⟨10, 10⟩ ∧
    (10 : ℚ) ≠ 4 := by
  refine ⟨?_, by norm_num [c5Cand], by norm_num [c5Cand],
    by norm_num [c5BoxA], by norm_num [c5Sampler, SimpleSampler.init],
    by norm_num⟩
  norm_num [SimpleSampler.call, SimpleSampler.init, c5Sampler, c5BoxA, c5Cand,
    sampleLoop, stepClassify, stepAdd, addData, iouOf, area_union,
    area_over, area_add, refArea, candBox, nsizeHalf, overlapFails]
  rfl

/-- C5 as amended: the half-size used to form candidate boxes is fixed at
construction from `init_bbox`.  For a sampler built by `__init__` on
`init_bbox`, every drawn candidate has width and height equal to
`init_bbox`'s width and height times the draw's scale factor — an
expression in which the per-call box argument does not occur at all (the
per-call box only sets the reference geometry and the centre
distribution). -/
theorem candidate_size_fixed (Img : Type) (init_bbox : Box)
    (transforms : Option (Img → Img)) (ttp ttn : Option (Box → Box))
    (num : ℕ × ℕ) (threshold : ℚ × ℚ) (sigma_xy : Vec2) (sigma_s : ℚ)
    (d : Draw) :
    (candBox (SimpleSampler.init Img init_bbox transforms ttp ttn num
        threshold sigma_xy sigma_s).isize d).br.x
      - (candBox (SimpleSampler.init Img init_bbox transforms ttp ttn num
        threshold sigma_xy sigma_s).isize d).lt.x
      = (init_bbox.br.x - init_bbox.lt.x) * d.scaleF ∧
    (candBox (SimpleSampler.init Img init_bbox transforms ttp ttn num
        threshold sigma_xy sigma_s).isize d).br.y
      - (candBox (SimpleSampler.init Img init_bbox transforms ttp ttn num
        threshold sigma_xy sigma_s).isize d).lt.y
      = (init_bbox.br.y - init_bbox.lt.y) * d.scaleF := by
  unfold SimpleSampler.init candBox nsizeHalf
  constructor <;> ring

/-! ### C6 -/

/-- A sampler configured with `num = [0, 0]`. -/
def c6Sampler : SimpleSampler Unit :=
  SimpleSampler.init Unit wBoxRef none none none (0, 0) (7/10, 1/2)
    ⟨3/10, 3/10⟩ (1/2)

/-- C6 counterexample: with `num = [0, 0]` the call does NOT terminate
immediately with no draws performed — on an empty draw stream the
`while True` loop never returns (first conjunct), because the loop
breaker sits after the overlap test and is reached only once a drawn
candidate intersects the reference.  Termination requires consuming at
least one draw: given one intersecting draw the call returns, with an
empty candidate list (second conjunct). -/
theorem num_zero_needs_draw :
    c6Sampler.call () wBoxRef [] = none ∧
    c6Sampler.call () wBoxRef [⟨⟨5, 5⟩, 1⟩]
      = some ⟨(), [], none, none, none⟩ := by
  constructor
  · rfl
  · norm_num [SimpleSampler.call, SimpleSampler.init, c6Sampler, wBoxRef,
      sampleLoop, stepClassify, stepAdd, addData, iouOf, area_union,
      area_over, area_add, refArea, candBox, nsizeHalf, overlapFails]
    rfl

/-- C6 as amended: with `num = [0, 0]`, whenever the call terminates it
returns an empty candidate list, and the draw stream is necessarily
non-empty — at least one draw is always consumed, since the loop breaker
is only reached after a draw passes the overlap test. -/
theorem num_zero_empty {Img : Type} (s : SimpleSampler Img) (img : Img)
    (bbox : Box) (draws : List Draw) (rv : RegionDataset Img)
    (hnum : s.num = (0, 0)) (h : s.call img bbox draws = some rv) :
    rv.crops = [] ∧ draws ≠ [] := by
  constructor
  · unfold SimpleSampler.call at h
    cases hl : sampleLoop s.thres_pos s.thres_neg bbox s.isize draws s.num []
      with
    | none => rw [hl] at h; exact Option.noConfusion h
    | some pr =>
      obtain ⟨out, rest⟩ := pr
      rw [hl] at h
      have hrv : rv = ⟨img, out, s.transforms, s.target_transforms_pos,
          s.target_transforms_neg⟩ := (Option.some.inj h).symm
      have hspec := sampleLoop_spec s.thres_pos s.thres_neg bbox s.isize
        draws s.num [] out rest hl
      rw [hnum] at hspec
      have hlen : out.length = 0 := by
        have := hspec.2.2
        simpa using this
      rw [hrv]
      exact List.length_eq_zero.mp hlen
  · intro hnil
    rw [hnil] at h
    unfold SimpleSampler.call at h
    simp [sampleLoop] at h

/-- Witness for the amended C6: a concrete `num = [0, 0]` call that
terminates after one intersecting draw, with an empty candidate list. -/
theorem num_zero_empty_witness :
    (⟨(), [], none, none, none⟩ : RegionDataset Unit).crops = [] ∧
    ([⟨⟨5, 5⟩, 1⟩] : List Draw) ≠ [] :=
  num_zero_empty c6Sampler () wBoxRef [⟨⟨5, 5⟩, 1⟩]
    ⟨(), [], none, none, none⟩ rfl
    (by
      norm_num [SimpleSampler.call, SimpleSampler.init, c6Sampler, wBoxRef,
        sampleLoop, stepClassify, stepAdd, addData, iouOf, area_union,
        area_over, area_add, refArea, candBox, nsizeHalf, overlapFails]
      rfl)

/-! ### C7 -/

/-- C7: `Folder` construction surfaces a `ConfigurationError`-class error
(one of the two explicit `ValueError` raises) exactly when the path is
not an existing directory or the directory lacks `groundtruth.txt`; the
error happens at construction, in which case no `Folder` (hence no entry
list) is produced — `Except.error` carries no `Folder` value.  (An
exception escaping `numpy.genfromtxt` or the record-parsing loop is a
different error class — `raggedGtruth`, `squeezedGtruth` or
`parseFault` — and never one of these two.) -/
theorem folder_error_iff (fs : FolderFS) :
    (Folder.init fs = .error .notADir ∨
     Folder.init fs = .error .noGroundtruth) ↔
    (fs.isDir = false ∨ fs.hasGroundtruth = false) := by
  unfold Folder.init
  cases hd : fs.isDir <;> cases hg : fs.hasGroundtruth <;> simp
  split_ifs <;> try simp
  cases hb : buildData (fs.imageNames.zip fs.gtruthRows) <;> simp

/-! ### C8 -/

/-- C8: with no transform functions configured, `RegionView.get(i)` at an
in-range index returns the image cropped to the i-th candidate's box
paired with that raw box, mutates no state (the post-call object equals
the pre-call object), and a second call on the post-call state returns
the identical result. -/
theorem regionview_get_idempotent {Img : Type} (crop : Img → Box → Img)
    (ds : RegionDataset Img) (i : ℕ) (p : Bool) (b : Box)
    (h1 : ds.transforms = none) (h2 : ds.target_transforms_pos = none)
    (h3 : ds.target_transforms_neg = none)
    (h4 : ds.crops[i]? = some (p, b)) :
    ds.getitem crop i = some ((crop ds.img b, b), ds) ∧
    (ds.getitem crop i).bind (fun r => r.2.getitem crop i)
      = some ((crop ds.img b, b), ds) := by
  have hmain : ds.getitem crop i = some ((crop ds.img b, b), ds) := by
    unfold RegionDataset.getitem
    rw [h4, h1, h2, h3]
    cases p <;> simp
  refine ⟨hmain, ?_⟩
  rw [hmain]
  simpa using hmain

/-- A concrete two-candidate region view over the image `3 : ℕ`, with no
transforms. -/
def c8DS : RegionDataset ℕ :=
  ⟨3, [(true, ⟨⟨0, 0⟩, ⟨10, 10⟩⟩), (false, ⟨⟨1, 1⟩, ⟨2, 2⟩⟩)],
   none, none, none⟩

/-- Witness for C8 at the concrete view `c8DS` with the crop function
`fun n _ => n + 1`: both accesses of index 0 return `(4, (0,0,10,10))`
and leave the state untouched. -/
theorem regionview_get_idempotent_witness :
    c8DS.getitem (fun n _ => n + 1) 0
      = some ((4, ⟨⟨0, 0⟩, ⟨10, 10⟩⟩), c8DS) ∧
    (c8DS.getitem (fun n _ => n + 1) 0).bind
        (fun r => r.2.getitem (fun n _ => n + 1) 0)
      = some ((4, ⟨⟨0, 0⟩, ⟨10, 10⟩⟩), c8DS) :=
  regionview_get_idempotent (fun n _ => n + 1) c8DS 0 true
    ⟨⟨0, 0⟩, ⟨10, 10⟩⟩ rfl rfl rfl rfl

/-! ### C9 -/

/-- Length of the even-position slice. -/
theorem stride2_length : ∀ l : List ℚ, (stride2 l).length = (l.length + 1) / 2
  | [] => by simp [stride2]
  | [_] => by simp [stride2]
  | _ :: _ :: rest => by
    have h := stride2_length rest
    simp only [stride2, List.length_cons, h]
    omega

/-- `min(*pts)` succeeds exactly on lists of at least two points. -/
theorem pyMinStar_some : ∀ l : List ℚ, 2 ≤ l.length → ∃ q, pyMinStar l = some q
  | [], h => by simp at h
  | [_], h => by simp at h
  | _ :: _ :: _, _ => ⟨_, rfl⟩

/-- `max(*pts)` succeeds exactly on lists of at least two points. -/
theorem pyMaxStar_some : ∀ l : List ℚ, 2 ≤ l.length → ∃ q, pyMaxStar l = some q
  | [], h => by simp at h
  | [_], h => by simp at h
  | _ :: _ :: _, _ => ⟨_, rfl⟩

/-- Every ground-truth row with at least 4 values (two points) parses. -/
theorem parseRecord_ok (gt : List ℚ) (h : 4 ≤ gt.length) :
    ∃ b, parseRecord gt = some b := by
  obtain ⟨q1, h1⟩ := pyMinStar_some (stride2 gt)
    (by rw [stride2_length]; omega)
  obtain ⟨q2, h2⟩ := pyMinStar_some (stride2 gt.tail)
    (by rw [stride2_length]; cases gt with
        | nil => simp at h
        | cons a l => simp at h ⊢; omega)
  obtain ⟨q3, h3⟩ := pyMaxStar_some (stride2 gt)
    (by rw [stride2_length]; omega)
  obtain ⟨q4, h4⟩ := pyMaxStar_some (stride2 gt.tail)
    (by rw [stride2_length]; cases gt with
        | nil => simp at h
        | cons a l => simp at h ⊢; omega)
  exact ⟨⟨⟨q1, q2⟩, ⟨q3, q4⟩⟩, by simp [parseRecord, h1, h2, h3, h4]⟩

/-- If every zipped record has at least 4 values, the entry-building loop
succeeds and produces one entry per zipped pair. -/
theorem buildData_ok : ∀ l : List (String × List ℚ),
    (∀ p ∈ l, 4 ≤ p.2.length) →
    ∃ d, buildData l = some d ∧ d.length = l.length := by
  intro l
  induction l with
  | nil => intro _; exact ⟨[], rfl, rfl⟩
  | cons p rest ih =>
    intro h
    obtain ⟨b, hb⟩ := parseRecord_ok p.2 (h p (by simp))
    obtain ⟨d, hd, hlen⟩ := ih (fun q hq => h q (by simp [hq]))
    obtain ⟨fn, gt⟩ := p
    refine ⟨(fn, b) :: d, ?_, by simp [hlen]⟩
    simp only [buildData]
    rw [hb, hd]

/-- A filesystem view with two image files but only one ground-truth
line (of four values): `numpy.genfromtxt` squeezes this file to a 1-D
array, so real construction raises instead of zipping one record. -/
def wFS : FolderFS := ⟨true, true, ["00000001.jpg", "00000002.jpg"],
  [[0, 0, 10, 10]]⟩

/-- C9 counterexample: two image files against one (well-formed)
ground-truth line — the counts differ, yet `Folder` construction does
NOT succeed with `min 2 1 = 1` entries: `numpy.genfromtxt` squeezes the
one-line file to a 1-D array, `zip` pairs each filename with a scalar,
and `gt[0::2]` raises `IndexError` in the first loop iteration, so
construction fails and no entry list exists. -/
theorem folder_single_row_raises :
    wFS.imageNames.length = 2 ∧ wFS.gtruthRows.length = 1 ∧
    Folder.init wFS = .error .squeezedGtruth ∧
    ∀ f, Folder.init wFS ≠ .ok f := by
  refine ⟨rfl, rfl, rfl, ?_⟩
  intro f hf
  rw [show Folder.init wFS = .error .squeezedGtruth from rfl] at hf
  exact Except.noConfusion hf

/-- C9 as amended: provided the ground-truth file genuinely parses to a
2-D array — at least two lines, all with the same number of values, that
number at least 4 (so each record also reduces to a box) — a mismatch
between the image-file count and the record count raises no error:
construction succeeds and the entry count is the minimum of the two
lengths, `zip` silently dropping the excess filenames or records.  For a
single-line (or single-column) file, genfromtxt's squeeze makes the zip
iterate scalars and construction raises instead (see the
counterexample). -/
theorem folder_length_min (fs : FolderFS) (h1 : fs.isDir = true)
    (h2 : fs.hasGroundtruth = true)
    (h3 : uniformRows fs.gtruthRows = true)
    (h4 : 2 ≤ fs.gtruthRows.length)
    (h5 : ∀ r ∈ fs.gtruthRows, 4 ≤ r.length) :
    ∃ f, Folder.init fs = .ok f ∧
      f.data.length = min fs.imageNames.length fs.gtruthRows.length := by
  have h5' : ∀ p ∈ fs.imageNames.zip fs.gtruthRows, 4 ≤ p.2.length := by
    intro p hp
    obtain ⟨a, b⟩ := p
    exact h5 b (List.of_mem_zip hp).2
  obtain ⟨d, hd, hlen⟩ := buildData_ok _ h5'
  have hhead : 4 ≤ (fs.gtruthRows.headI).length := by
    cases hrows : fs.gtruthRows with
    | nil => rw [hrows] at h4; simp at h4
    | cons r rest => exact h5 r (by rw [hrows]; simp)
  have hne1 : fs.gtruthRows.length ≠ 1 := by omega
  refine ⟨⟨d⟩, ?_, ?_⟩
  · unfold Folder.init
    rw [h1, h2, h3]
    have hc1 : ¬(fs.gtruthRows.length = 1 ∧
        (fs.gtruthRows.headI).length ≤ 1) := by
      intro hcon
      exact hne1 hcon.1
    have hc2 : ¬(fs.gtruthRows.length = 1 ∨
        (fs.gtruthRows.headI).length = 1) := by
      intro hcon
      rcases hcon with hcon | hcon
      · exact hne1 hcon
      · omega
    simp [hc1, hc2, hd]
  · simp only [hlen, List.length_zip]

/-- A filesystem view with three image files and two uniform four-value
ground-truth lines: genfromtxt yields a 2-D array and `zip` truncates. -/
def wFS2 : FolderFS := ⟨true, true,
  ["00000001.jpg", "00000002.jpg", "00000003.jpg"],
  [[0, 0, 10, 10], [1, 1, 5, 5]]⟩

/-- Witness for the amended C9 on `wFS2`: construction succeeds and the
entry count is `min 3 2 = 2`, silently dropping the third filename. -/
theorem folder_length_min_witness :
    ∃ f, Folder.init wFS2 = .ok f ∧
      f.data.length = min wFS2.imageNames.length wFS2.gtruthRows.length :=
  folder_length_min wFS2 rfl rfl (by decide) (by decide) (by decide)

/-! ### C10 -/

/-- C10: the loop breaker is evaluated only on iterations whose candidate
passes the overlap test.  With both quotas already at zero (filled), (a)
a draw stream of disjoint candidates never triggers loop exit — the loop
runs out of draws without returning — and (b) the loop exits exactly at
the first draw whose candidate intersects the reference: the run of
disjoint draws before it is consumed without effect (the negative quota
being 0, `add_data` is a no-op), the data is unchanged, and the draws
after it are left unconsumed. -/
theorem breaker_requires_overlap (tp tn : ℚ) (ref : Box) (isize : Vec2)
    (data : List (Bool × Box)) :
    (∀ ds : List Draw,
      (∀ e ∈ ds, overlapFails ref (candBox isize e) = true) →
      sampleLoop tp tn ref isize ds (0, 0) data = none) ∧
    (∀ (ds1 : List Draw) (d : Draw) (ds2 : List Draw),
      (∀ e ∈ ds1, overlapFails ref (candBox isize e) = true) →
      overlapFails ref (candBox isize d) = false →
      sampleLoop tp tn ref isize (ds1 ++ d :: ds2) (0, 0) data
        = some (data, ds2)) := by
  constructor
  · intro ds
    induction ds with
    | nil => intro _; simp [sampleLoop]
    | cons e ds ih =>
      intro hall
      have he : overlapFails ref (candBox isize e) = true := hall e (by simp)
      have hc : stepClassify tp tn ref isize e = StepResult.disjointNeg :=
        (stepClassify_disjoint_iff tp tn ref isize e).mpr he
      simp only [sampleLoop, hc, stepAdd_zero, if_pos]
      exact ih (fun x hx => hall x (by simp [hx]))
  · intro ds1
    induction ds1 with
    | nil =>
      intro d ds2 _ hov
      have hc : stepClassify tp tn ref isize d ≠ StepResult.disjointNeg := by
        intro hcon
        rw [(stepClassify_disjoint_iff tp tn ref isize d).mp hcon] at hov
        exact Bool.noConfusion hov
      simp only [List.nil_append, sampleLoop, stepAdd_zero]
      rw [if_neg hc]
      simp
    | cons e ds1 ih =>
      intro d ds2 hall hov
      have he : overlapFails ref (candBox isize e) = true := hall e (by simp)
      have hc : stepClassify tp tn ref isize e = StepResult.disjointNeg :=
        (stepClassify_disjoint_iff tp tn ref isize e).mpr he
      simp only [List.cons_append, sampleLoop, hc, stepAdd_zero, if_pos]
      exact ih d ds2 (fun x hx => hall x (by simp [hx])) hov

/-- Witness for C10, exercising both conjuncts with quotas `(0, 0)`: a
single disjoint draw makes the loop run out without exiting, and a
disjoint draw followed by an intersecting one exits exactly at the
intersecting draw with the data unchanged. -/
theorem breaker_requires_overlap_witness :
    sampleLoop (7/10) (1/2) wBoxRef c2Isize [⟨⟨100, 100⟩, 1⟩] (0, 0) []
      = none ∧
    sampleLoop (7/10) (1/2) wBoxRef c2Isize
        ([⟨⟨100, 100⟩, 1⟩] ++ ⟨⟨5, 5⟩, 1⟩ :: []) (0, 0) []
      = some ([], []) :=
  ⟨(breaker_requires_overlap (7/10) (1/2) wBoxRef c2Isize []).1
      [⟨⟨100, 100⟩, 1⟩]
      (by
        intro e he
        simp only [List.mem_singleton] at he
        subst he
        norm_num [wBoxRef, c2Isize, overlapFails, candBox, nsizeHalf]),
   (breaker_requires_overlap (7/10) (1/2) wBoxRef c2Isize []).2
      [⟨⟨100, 100⟩, 1⟩] ⟨⟨5, 5⟩, 1⟩ []
      (by
        intro e he
        simp only [List.mem_singleton] at he
        subst he
        norm_num [wBoxRef, c2Isize, overlapFails, candBox, nsizeHalf])
      (by norm_num [wBoxRef, c2Isize, overlapFails, candBox, nsizeHalf])⟩
